import Mathlib

/-!
Verification of the LangGraph supervisor/planner/reviewer controller
(`langgraph_agents.py` and its forced-issues variant `test_correction_loop.py`).

The embedding follows the Python source directly:

* Python/JSON values stored in the shared state are modelled by `JsonVal`;
  Python truthiness (`if not state.get(...)`) by `pyTruthy`.
* `json.loads` outcomes are modelled by an `Option JsonVal` carried in the
  Generation-Client result (`ClientResult`): `none` models a parse that
  raises, `some v` a parse returning the value `v`.  The raw response text
  is carried alongside for the fallback path.
* Each graph node (`planner_node`, `reviewer_node`, `supervisor_node`)
  returns a partial state update (`StateUpdate`), merged field-by-field by
  `applyUpdate`, exactly like LangGraph merges the returned dicts.
* The compiled graph (entry point supervisor, conditional edges by
  `router_logic`, unconditional edges planner→supervisor and
  reviewer→supervisor) is executed by the fuel-indexed `runAux`; the
  Generation Client is an oracle indexed by call number, model id and
  prompt text.
-/

/-- A JSON/Python value as produced by `json.loads`. -/
inductive JsonVal where
  | null : JsonVal
  | bool : Bool → JsonVal
  | num : Int → JsonVal
  | str : String → JsonVal
  | arr : List JsonVal → JsonVal
  | obj : List (String × JsonVal) → JsonVal
deriving Repr, BEq

/-- Python truthiness of a value (`if not v`): empty containers, empty
strings, zero, `None` and `False` are falsy. -/
def pyTruthy : JsonVal → Bool
  | .null => false
  | .bool b => b
  | .num n => !(n == 0)
  | .str s => !s.isEmpty
  | .arr xs => !xs.isEmpty
  | .obj fs => !fs.isEmpty

/-- Python len of a value: defined for strings, lists and dicts; `none` models the
`TypeError` raised by `len` on other values. -/
def pyLen : JsonVal → Option Nat
  | .str s => some s.length
  | .arr xs => some xs.length
  | .obj fs => some fs.length
  | _ => none

/-- Whether `v[:100]` succeeds: slicing is defined for strings and lists;
`false` models the `TypeError` raised on other values. -/
def pySliceOk : JsonVal → Bool
  | .str _ => true
  | .arr _ => true
  | _ => false

/-- A Python dict with string keys, as stored in the shared state. -/
abbrev PyDict := List (String × JsonVal)

/-- Keyed access with default on a Python dict (the dict get method). -/
def pyGet (d : PyDict) (key : String) (dflt : JsonVal) : JsonVal :=
  match d.lookup key with
  | some v => v
  | none => dflt

/-- Outcome of one `ollama.generate` call as seen by an agent node:
either the call raised (`failure msg`, with `str(e) = msg`), or it
returned text whose stripped form is `raw` and whose `json.loads` outcome
is `parsed` (`none` when parsing raises). -/
inductive ClientResult where
  | failure : String → ClientResult
  | success : String → Option JsonVal → ClientResult
deriving Repr, BEq

/-- The inner parse-or-fallback of `planner_node`: try `json.loads`,
and on any parse failure fall back to the record with the raw output as
`plan` and empty `steps`.  Total: the bare except clause converts every
parse failure into the fallback record. -/
def coerceProposal (raw : String) (parsed : Option JsonVal) : JsonVal :=
  match parsed with
  | some v => v
  | none => .obj [("plan", .str raw), ("steps", .arr [])]

/-- The inner parse-or-fallback of `reviewer_node`: try `json.loads`,
and on any parse failure fall back to the record with the raw output as
`feedback`, `has_issues` False and empty `suggestions`. -/
def coerceFeedback (raw : String) (parsed : Option JsonVal) : JsonVal :=
  match parsed with
  | some v => v
  | none =>
      .obj [("feedback", .str raw), ("has_issues", .bool false),
            ("suggestions", .arr [])]

/-- The degraded proposal built by the outer except clause of
`planner_node`: the `plan` field holds Error plus the exception text and
`steps` is empty. -/
def errProposal (msg : String) : PyDict :=
  [("plan", .str ("Error: " ++ msg)), ("steps", .arr [])]

/-- The degraded feedback built by the outer except clause of
`reviewer_node`: the `feedback` field holds Error plus the exception
text, `has_issues` is False and `suggestions` is empty. -/
def errFeedback (msg : String) : PyDict :=
  [("feedback", .str ("Error: " ++ msg)), ("has_issues", .bool false),
   ("suggestions", .arr [])]

/-- The dict stored as `planner_proposal` by `planner_node`
(`langgraph_agents.py` lines 69-87) given the client-call outcome.
The outer try block also covers the log line taking the length of the
`steps` entry, so a parse result that is not a dict (its `get` raises
AttributeError) or whose `steps` value has no length (TypeError) is
converted into the degraded error proposal; the exact Python exception
texts are abstracted by fixed descriptions. -/
def plannerResult : ClientResult → PyDict
  | .failure msg => errProposal msg
  | .success raw parsed =>
    match coerceProposal raw parsed with
    | .obj fields =>
        match pyLen (pyGet fields "steps" (.arr [])) with
        | some _ => fields
        | none => errProposal "object has no len()"
    | _ => errProposal "object has no attribute get"

/-- The dict stored as `reviewer_feedback` by `reviewer_node`
(`langgraph_agents.py` lines 118-138) given the client-call outcome.
The outer try block also covers the log line reading the `has_issues`
entry, so a non-dict parse result is converted into the degraded error
feedback. -/
def reviewerResult : ClientResult → PyDict
  | .failure msg => errFeedback msg
  | .success raw parsed =>
    match coerceFeedback raw parsed with
    | .obj fields => fields
    | _ => errFeedback "object has no attribute get"

/-- The shared `AgentState` of `langgraph_agents.py` (lines 30-45). -/
structure AgentState where
  title : String
  content : String
  email : String
  strict : Bool
  task : String
  llm : String
  planner_proposal : PyDict
  reviewer_feedback : PyDict
  turn_count : Nat
deriving Repr, BEq

/-- A partial state update as returned by one graph node: only the keys
that the returned dict of the node contains are set.  (The three nodes only
ever return these keys.) -/
structure StateUpdate where
  planner_proposal : Option PyDict
  reviewer_feedback : Option PyDict
  turn_count : Option Nat
deriving Repr, BEq

/-- The LangGraph merge of a returned node dict into the shared state:
field-level overwrite of exactly the returned keys. -/
def applyUpdate (s : AgentState) (u : StateUpdate) : AgentState :=
  { s with
    planner_proposal := u.planner_proposal.getD s.planner_proposal
    reviewer_feedback := u.reviewer_feedback.getD s.reviewer_feedback
    turn_count := u.turn_count.getD s.turn_count }

/-- The prompt built by `planner_node` (lines 57-67): built from
`state["task"]` only. -/
def plannerPrompt (s : AgentState) : String :=
  "You are a Planner Agent. Create a concise, step-by-step plan for this task:\n\nTask: "
    ++ s.task
    ++ "\n\nProvide a clear, structured plan with specific steps. Be brief but thorough.\nReturn your response as a JSON object with the following structure:\n\x7b\n    \"plan\": \"your detailed plan here\",\n    \"steps\": [\"step 1\", \"step 2\", \"step 3\"]\n\x7d\n"

mutual

/-- Serialization of a value, modelling `json.dumps` up to whitespace
and string escaping (the indent-2 layout is abstracted; no claim depends
on the exact layout, only on which data the text embeds). -/
def jsonDumps : JsonVal → String
  | .null => "null"
  | .bool true => "true"
  | .bool false => "false"
  | .num n => toString n
  | .str s => "\"" ++ s ++ "\""
  | .arr xs => "[" ++ jsonDumpsItems xs ++ "]"
  | .obj fs => "\x7b" ++ jsonDumpsEntries fs ++ "\x7d"

/-- Comma-separated dump of the items of a JSON array. -/
def jsonDumpsItems : List JsonVal → String
  | [] => ""
  | [x] => jsonDumps x
  | x :: y :: xs => jsonDumps x ++ ", " ++ jsonDumpsItems (y :: xs)

/-- Comma-separated dump of the entries of a JSON object. -/
def jsonDumpsEntries : List (String × JsonVal) → String
  | [] => ""
  | [(k, v)] => "\"" ++ k ++ "\": " ++ jsonDumps v
  | (k, v) :: e :: fs =>
      "\"" ++ k ++ "\": " ++ jsonDumps v ++ ", " ++ jsonDumpsEntries (e :: fs)

end

/-- The prompt built by `reviewer_node` (lines 98-116): embeds the dump
of the current proposal and a tone directive chosen by `strict`. -/
def reviewerPrompt (s : AgentState) : String :=
  "You are a Reviewer Agent. Review this plan and provide constructive feedback:\n\nPLAN:\n"
    ++ jsonDumps (.obj s.planner_proposal)
    ++ "\n\nProvide:\n1. What\x27s good\n2. What could be improved\n3. Whether there are any issues that need fixing\n\nReturn your response as a JSON object:\n\x7b\n    \"feedback\": \"your detailed feedback here\",\n    \"has_issues\": true/false,\n    \"suggestions\": [\"suggestion 1\", \"suggestion 2\"]\n\x7d\n\nBe "
    ++ (if s.strict then "very strict and critical" else "balanced and constructive")
    ++ ".\n"

/-- Node `planner_node`: returns a partial update carrying only the
`planner_proposal` key. -/
def planner_node (_s : AgentState) (client : ClientResult) : StateUpdate :=
  { planner_proposal := some (plannerResult client)
    reviewer_feedback := none
    turn_count := none }

/-- Node `reviewer_node`: returns a partial update carrying only the
`reviewer_feedback` key. -/
def reviewer_node (_s : AgentState) (client : ClientResult) : StateUpdate :=
  { planner_proposal := none
    reviewer_feedback := some (reviewerResult client)
    turn_count := none }

/-- Node `supervisor_node` (lines 143-149): returns a partial update
carrying only the `turn_count` key, set to the old counter plus one. -/
def supervisor_node (s : AgentState) : StateUpdate :=
  { planner_proposal := none
    reviewer_feedback := none
    turn_count := some (s.turn_count + 1) }

/-- The possible router decisions: the node names planner and
reviewer, or the LangGraph END sentinel. -/
inductive Route where
  | planner : Route
  | reviewer : Route
  | stop : Route
deriving Repr, DecidableEq

/-- The safety limit, set to 5 in the router (line 173). -/
def max_turns : Nat := 5

/-- Router `router_logic` (`langgraph_agents.py` lines 152-184).  `if not
state.get("planner_proposal")` on a dict is the emptiness test, and
`reviewer_feedback.get("has_issues", False)` is truthiness of the
`has_issues` entry with default `False`. -/
def router_logic (s : AgentState) : Route :=
  if s.planner_proposal.isEmpty then .planner
  else if s.reviewer_feedback.isEmpty then .reviewer
  else
    if pyTruthy (pyGet s.reviewer_feedback "has_issues" (.bool false)) then
      if max_turns ≤ s.turn_count then .stop
      else .planner
    else .stop

/-- The Generation Client as an oracle: call index, model id, prompt ↦
outcome.  Indexing by call number lets theorems quantify over arbitrary
response sequences. -/
def ClientOracle := Nat → String → String → ClientResult

/-- A node executed by the compiled graph. -/
inductive Node where
  | supervisor : Node
  | planner : Node
  | reviewer : Node
deriving Repr, DecidableEq

/-- Result of running the graph: final state, the sequence of executed
node steps, and whether `END` was reached (`false` means the fuel ran
out while the graph was still looping). -/
structure RunResult where
  final : AgentState
  trace : List Node
  terminated : Bool
deriving Repr, BEq

/-- Execution of the compiled graph of `build_graph` (lines 189-220):
entry point `supervisor`; after each supervisor step the router picks
`planner`, `reviewer` or `END`; both agent nodes return to `supervisor`.
`fuel` bounds the number of supervisor visits (the real graph has no
such bound); `calls` numbers the Generation-Client calls. -/
def runAux (orc : ClientOracle) : Nat → AgentState → Nat → RunResult
  | 0, s, _ => ⟨s, [], false⟩
  | fuel + 1, s, calls =>
    let s1 := applyUpdate s (supervisor_node s)
    match router_logic s1 with
    | .stop => ⟨s1, [.supervisor], true⟩
    | .planner =>
        let res := orc calls s1.llm (plannerPrompt s1)
        let s2 := applyUpdate s1 (planner_node s1 res)
        let r := runAux orc fuel s2 (calls + 1)
        ⟨r.final, .supervisor :: .planner :: r.trace, r.terminated⟩
    | .reviewer =>
        let res := orc calls s1.llm (reviewerPrompt s1)
        let s2 := applyUpdate s1 (reviewer_node s1 res)
        let r := runAux orc fuel s2 (calls + 1)
        ⟨r.final, .supervisor :: .reviewer :: r.trace, r.terminated⟩

/-- The initial state built by `main` (lines 243-253): both agent-output
slots hold the empty dict and the counter starts at 0. -/
def initialState (task : String) (strict : Bool) : AgentState :=
  { title := "LangGraph Agent Task"
    content := task
    email := "user@example.com"
    strict := strict
    task := task
    llm := "smollm:1.7b"
    planner_proposal := []
    reviewer_feedback := []
    turn_count := 0 }

/-- Substring test on the underlying character lists. -/
def listContainsSub (needle : List Char) : List Char → Bool
  | [] => needle.isEmpty
  | c :: rest => needle.isPrefixOf (c :: rest) || listContainsSub needle rest

/-- Whether `needle` occurs as a contiguous substring of `hay`. -/
def strContainsSub (hay needle : String) : Bool :=
  listContainsSub needle.toList hay.toList

/-! ## The forced-issues variant `test_correction_loop.py` -/

/-- The shared `AgentState` of `test_correction_loop.py` (lines 29-40). -/
structure TCAgentState where
  task : String
  llm : String
  planner_proposal : PyDict
  reviewer_feedback : PyDict
  turn_count : Nat
deriving Repr, BEq

/-- The revision prompt of the variant planner node (lines 58-71),
embedding `json.dumps(previous_feedback, indent=2)` and the task. -/
def tcRevisionPrompt (previousFeedback task : String) : String :=
  "You are a Planner Agent. The reviewer found issues with your previous plan.\n\nPrevious Feedback:\n"
    ++ previousFeedback
    ++ "\n\nOriginal Task: "
    ++ task
    ++ "\n\nCreate an IMPROVED plan addressing the reviewer\x27s concerns.\nReturn your response as a JSON object:\n\x7b\n    \"plan\": \"your improved detailed plan here\",\n    \"steps\": [\"step 1\", \"step 2\", \"step 3\"]\n\x7d\n"

/-- The first-draft prompt of the variant planner node (lines 74-84). -/
def tcDraftPrompt (task : String) : String :=
  "You are a Planner Agent. Create a concise, step-by-step plan for this task:\n\nTask: "
    ++ task
    ++ "\n\nProvide a clear, structured plan with specific steps. Be brief but thorough.\nReturn your response as a JSON object:\n\x7b\n    \"plan\": \"your detailed plan here\",\n    \"steps\": [\"step 1\", \"step 2\", \"step 3\"]\n\x7d\n"

/-- Prompt selection of the variant planner node (lines 53-84):
`if previous_feedback and turn_count > 1` chooses the revision prompt,
else the first-draft prompt.  `previous_feedback` truthiness on a dict
is non-emptiness. -/
def tcPlannerPrompt (s : TCAgentState) : String :=
  if !s.reviewer_feedback.isEmpty && decide (1 < s.turn_count) then
    tcRevisionPrompt (jsonDumps (.obj s.reviewer_feedback)) s.task
  else
    tcDraftPrompt s.task

/-- The dict stored as `planner_proposal` by the planner node of the
variant (lines 86-105).  Its outer try block additionally covers the
preview line slicing the `plan` entry, so a `plan` value that cannot be
sliced also yields the degraded error proposal. -/
def tcPlannerResult : ClientResult → PyDict
  | .failure msg => errProposal msg
  | .success raw parsed =>
    match coerceProposal raw parsed with
    | .obj fields =>
        match pyLen (pyGet fields "steps" (.arr [])) with
        | some _ =>
            if pySliceOk (pyGet fields "plan" (.str "")) then fields
            else errProposal "object is not subscriptable"
        | none => errProposal "object has no len()"
    | _ => errProposal "object has no attribute get"

/-- Node `reviewer_node_always_issues` (lines 108-141): no client call; for
`turn_count < 3` it returns a forced-issue record with `has_issues:
True`, afterwards an approval record with `has_issues: False`. -/
def tcReviewerFeedback (turn : Nat) : PyDict :=
  if turn < 3 then
    [("feedback",
      .str ("[FORCED ISSUE #" ++ toString turn
        ++ "] The plan needs more detail in step " ++ toString (turn + 1)
        ++ ". Please elaborate on the implementation specifics.")),
     ("has_issues", .bool true),
     ("suggestions",
      .arr [.str ("Add more detail to step " ++ toString (turn + 1)),
            .str "Include error handling considerations",
            .str "Specify expected outcomes"])]
  else
    [("feedback",
      .str "The plan looks good now after multiple revisions. All concerns have been addressed."),
     ("has_issues", .bool false),
     ("suggestions", .arr [])]

/-- The router of the variant, `tcRouterLogic` (lines 155-189): textually the same
decision procedure as in `langgraph_agents.py`. -/
def tcRouterLogic (s : TCAgentState) : Route :=
  if s.planner_proposal.isEmpty then .planner
  else if s.reviewer_feedback.isEmpty then .reviewer
  else
    if pyTruthy (pyGet s.reviewer_feedback "has_issues" (.bool false)) then
      if max_turns ≤ s.turn_count then .stop
      else .planner
    else .stop

/-- Execution of the compiled variant graph (lines 192-225): same
wiring as `build_graph`, with `reviewer_node_always_issues` as the
reviewer; only the planner consults the Generation Client. -/
def tcRunAux (orc : ClientOracle) : Nat → TCAgentState → Nat → (TCAgentState × List Node × Bool)
  | 0, s, _ => (s, [], false)
  | fuel + 1, s, calls =>
    let s1 := { s with turn_count := s.turn_count + 1 }
    match tcRouterLogic s1 with
    | .stop => (s1, [.supervisor], true)
    | .planner =>
        let res := orc calls s1.llm (tcPlannerPrompt s1)
        let s2 := { s1 with planner_proposal := tcPlannerResult res }
        let r := tcRunAux orc fuel s2 (calls + 1)
        (r.1, .supervisor :: .planner :: r.2.1, r.2.2)
    | .reviewer =>
        let s2 := { s1 with reviewer_feedback := tcReviewerFeedback s1.turn_count }
        let r := tcRunAux orc fuel s2 calls
        (r.1, .supervisor :: .reviewer :: r.2.1, r.2.2)

/-- The initial state built by the main function of the variant (lines 243-249). -/
def tcInitialState (task : String) : TCAgentState :=
  { task := task
    llm := "smollm:1.7b"
    planner_proposal := []
    reviewer_feedback := []
    turn_count := 0 }

/-! ## Helper lemmas -/

theorem isEmpty_false_of_ne_nil {α : Type} {l : List α} (h : l ≠ []) :
    l.isEmpty = false := by
  cases l with
  | nil => exact absurd rfl h
  | cons a t => rfl

theorem dict_ne_nil_of_lookup {l : PyDict} {k : String} {v : JsonVal}
    (h : l.lookup k = some v) : l ≠ [] := by
  intro he
  subst he
  simp [List.lookup] at h

theorem applyUpdate_supervisor (s : AgentState) :
    applyUpdate s (supervisor_node s) = { s with turn_count := s.turn_count + 1 } := rfl

theorem applyUpdate_planner (s t : AgentState) (c : ClientResult) :
    applyUpdate s (planner_node t c) = { s with planner_proposal := plannerResult c } := rfl

theorem applyUpdate_reviewer (s t : AgentState) (c : ClientResult) :
    applyUpdate s (reviewer_node t c) = { s with reviewer_feedback := reviewerResult c } := rfl

/-- The stored planner proposal is the empty dict exactly when the client
response parsed to the empty JSON object; every other outcome (failure,
parse fallback, degraded record, non-empty parse) stores at least one key. -/
theorem plannerResult_ne_nil {r : ClientResult}
    (h : ∀ raw, r ≠ .success raw (some (.obj []))) : plannerResult r ≠ [] := by
  cases r with
  | failure m => simp [plannerResult, errProposal]
  | success raw parsed =>
    cases parsed with
    | none => exact fun he => nomatch he
    | some v =>
      cases v with
      | null => simp [plannerResult, coerceProposal, errProposal]
      | bool b => simp [plannerResult, coerceProposal, errProposal]
      | num n => simp [plannerResult, coerceProposal, errProposal]
      | str t => simp [plannerResult, coerceProposal, errProposal]
      | arr xs => simp [plannerResult, coerceProposal, errProposal]
      | obj fields =>
        cases fields with
        | nil => exact absurd rfl (h raw)
        | cons f fs =>
          simp only [plannerResult, coerceProposal]
          cases hl : pyLen (pyGet (f :: fs) "steps" (.arr [])) with
          | none => simp [errProposal]
          | some n => simp

/-- Same emptiness characterization for the stored reviewer feedback. -/
theorem reviewerResult_ne_nil {r : ClientResult}
    (h : ∀ raw, r ≠ .success raw (some (.obj []))) : reviewerResult r ≠ [] := by
  cases r with
  | failure m => simp [reviewerResult, errFeedback]
  | success raw parsed =>
    cases parsed with
    | none => simp [reviewerResult, coerceFeedback]
    | some v =>
      cases v with
      | null => simp [reviewerResult, coerceFeedback, errFeedback]
      | bool b => simp [reviewerResult, coerceFeedback, errFeedback]
      | num n => simp [reviewerResult, coerceFeedback, errFeedback]
      | str t => simp [reviewerResult, coerceFeedback, errFeedback]
      | arr xs => simp [reviewerResult, coerceFeedback, errFeedback]
      | obj fields =>
        cases fields with
        | nil => exact absurd rfl (h raw)
        | cons f fs => simp [reviewerResult, coerceFeedback]

/-! ## Run-step lemmas -/

/-- One supervisor-plus-agent superstep prepended to a run result. -/
def consStep (n : Node) (r : RunResult) : RunResult :=
  ⟨r.final, .supervisor :: n :: r.trace, r.terminated⟩

/-- The state after a supervisor visit followed by a planner step: the
counter is incremented and the proposal slot overwritten with the result
of the next client call.  (`plannerPrompt`/`llm` read no field the
supervisor changes, so the pre-visit state determines the prompt.) -/
def planStep (orc : ClientOracle) (s : AgentState) (calls : Nat) : AgentState :=
  { s with
    turn_count := s.turn_count + 1
    planner_proposal := plannerResult (orc calls s.llm (plannerPrompt s)) }

/-- The state after a supervisor visit followed by a reviewer step. -/
def revStep (orc : ClientOracle) (s : AgentState) (calls : Nat) : AgentState :=
  { s with
    turn_count := s.turn_count + 1
    reviewer_feedback := reviewerResult (orc calls s.llm (reviewerPrompt s)) }

theorem router_planner_of_empty (s : AgentState) (h : s.planner_proposal = []) :
    router_logic s = .planner := by
  simp [router_logic, h]

theorem router_reviewer_of (s : AgentState) (hp : s.planner_proposal ≠ [])
    (hf : s.reviewer_feedback = []) : router_logic s = .reviewer := by
  simp [router_logic, isEmpty_false_of_ne_nil hp, hf]

theorem router_stop_of_clean (s : AgentState) (hp : s.planner_proposal ≠ [])
    (hf : s.reviewer_feedback ≠ [])
    (hi : pyTruthy (pyGet s.reviewer_feedback "has_issues" (.bool false)) = false) :
    router_logic s = .stop := by
  simp [router_logic, isEmpty_false_of_ne_nil hp, isEmpty_false_of_ne_nil hf, hi]

theorem router_stop_of_limit (s : AgentState) (hp : s.planner_proposal ≠ [])
    (hf : s.reviewer_feedback ≠ [])
    (hi : pyTruthy (pyGet s.reviewer_feedback "has_issues" (.bool false)) = true)
    (ht : max_turns ≤ s.turn_count) : router_logic s = .stop := by
  simp [router_logic, isEmpty_false_of_ne_nil hp, isEmpty_false_of_ne_nil hf, hi, ht]

theorem router_planner_of_issues (s : AgentState) (hp : s.planner_proposal ≠ [])
    (hf : s.reviewer_feedback ≠ [])
    (hi : pyTruthy (pyGet s.reviewer_feedback "has_issues" (.bool false)) = true)
    (ht : s.turn_count < max_turns) : router_logic s = .planner := by
  simp [router_logic, isEmpty_false_of_ne_nil hp, isEmpty_false_of_ne_nil hf, hi,
        Nat.not_le.mpr ht]

theorem runAux_stop_step (orc : ClientOracle) (fuel : Nat) (s : AgentState) (calls : Nat)
    (h : router_logic { s with turn_count := s.turn_count + 1 } = .stop) :
    runAux orc (fuel + 1) s calls =
      ⟨{ s with turn_count := s.turn_count + 1 }, [.supervisor], true⟩ := by
  have e : applyUpdate s (supervisor_node s) = { s with turn_count := s.turn_count + 1 } := rfl
  simp only [runAux]
  rw [e, h]

theorem runAux_planner_step (orc : ClientOracle) (fuel : Nat) (s : AgentState) (calls : Nat)
    (h : router_logic { s with turn_count := s.turn_count + 1 } = .planner) :
    runAux orc (fuel + 1) s calls =
      consStep .planner (runAux orc fuel (planStep orc s calls) (calls + 1)) := by
  have e : applyUpdate s (supervisor_node s) = { s with turn_count := s.turn_count + 1 } := rfl
  simp only [runAux]
  rw [e, h]
  rfl

theorem runAux_reviewer_step (orc : ClientOracle) (fuel : Nat) (s : AgentState) (calls : Nat)
    (h : router_logic { s with turn_count := s.turn_count + 1 } = .reviewer) :
    runAux orc (fuel + 1) s calls =
      consStep .reviewer (runAux orc fuel (revStep orc s calls) (calls + 1)) := by
  have e : applyUpdate s (supervisor_node s) = { s with turn_count := s.turn_count + 1 } := rfl
  simp only [runAux]
  rw [e, h]
  rfl

/-- The final counter of any run equals the starting counter plus the
number of supervisor steps in the trace. -/
theorem runAux_turn_count (orc : ClientOracle) :
    ∀ (fuel : Nat) (s : AgentState) (calls : Nat),
      (runAux orc fuel s calls).final.turn_count =
        s.turn_count + (runAux orc fuel s calls).trace.count .supervisor := by
  intro fuel
  induction fuel with
  | zero => intro s calls; simp [runAux]
  | succ f ih =>
    intro s calls
    cases hR : router_logic { s with turn_count := s.turn_count + 1 } with
    | stop => rw [runAux_stop_step orc f s calls hR]; simp
    | planner =>
        rw [runAux_planner_step orc f s calls hR]
        simp only [consStep]
        rw [ih (planStep orc s calls) (calls + 1)]
        simp [planStep, List.count_cons]
        omega
    | reviewer =>
        rw [runAux_reviewer_step orc f s calls hR]
        simp only [consStep]
        rw [ih (revStep orc s calls) (calls + 1)]
        simp [revStep, List.count_cons]
        omega

/-! ## Claim theorems -/

/-- The router decision procedure as worded by the claim: the four rules
in their stated order (absence of a stored record being its emptiness,
which is how the state represents absence). -/
def route_spec (s : AgentState) : Route :=
  if s.planner_proposal.isEmpty then .planner
  else if s.reviewer_feedback.isEmpty then .reviewer
  else if pyTruthy (pyGet s.reviewer_feedback "has_issues" (.bool false)) = false then .stop
  else if max_turns ≤ s.turn_count then .stop
  else .planner

/-- C1: `router_logic` is a deterministic total function (a Lean
function) equal, on every state, to the claimed four-rule decision
procedure evaluated in its strict order; in particular, an absent (empty)
proposal yields PLANNER and an absent feedback yields REVIEWER
regardless of `turn_count`, since those rules precede the turn check. -/
theorem router_matches_claimed_order (s : AgentState) :
    router_logic s = route_spec s := by
  unfold router_logic route_spec
  cases hp : s.planner_proposal.isEmpty <;>
    cases hf : s.reviewer_feedback.isEmpty <;>
      cases hi : pyTruthy (pyGet s.reviewer_feedback "has_issues" (.bool false)) <;>
        simp [hp, hf, hi]

/-- C10: the router decides "absence" of the agent outputs by dict
emptiness: a proposal that parsed to the empty JSON object is stored as
the empty dict, and any state whose stored proposal is the empty dict is
routed to PLANNER even though a planner run has completed. -/
theorem absence_by_emptiness (title content email : String) (strict : Bool)
    (task llm : String) (fb : PyDict) (turn : Nat) (raw : String) :
    plannerResult (.success raw (some (.obj []))) = [] ∧
    router_logic { title := title, content := content, email := email,
                   strict := strict, task := task, llm := llm,
                   planner_proposal := [], reviewer_feedback := fb,
                   turn_count := turn } = .planner :=
  ⟨rfl, rfl⟩

/-- C4 counterexample: on a successful parse of the empty JSON object
(raw text a pair of braces), the coercion returns the parsed value
unchanged — the
stored proposal has no `plan` key and the stored feedback has no
`has_issues` key, so absent shape fields are NOT filled with defaults at
coercion time. -/
theorem coercion_defaults_counterexample :
    coerceProposal "\x7b\x7d" (some (.obj [])) = .obj [] ∧
    (plannerResult (.success "\x7b\x7d" (some (.obj [])))).lookup "plan" = none ∧
    coerceFeedback "\x7b\x7d" (some (.obj [])) = .obj [] ∧
    (reviewerResult (.success "\x7b\x7d" (some (.obj [])))).lookup "has_issues" = none :=
  ⟨rfl, rfl, rfl, rfl⟩

/-- C4 amended: coercion is total (a Lean function; the bare `except`
absorbs every parse failure) and on parse failure returns the degraded
record carrying the raw text in the prose field with `steps`/`suggestions`
empty and `has_issues` false; on parse success it returns the parsed
value unchanged, with no default filling — the documented defaults are
applied only at the individual read sites (`.get(..., default)`). -/
theorem coercion_total_amended (raw : String) (v : JsonVal) :
    coerceProposal raw none = .obj [("plan", .str raw), ("steps", .arr [])] ∧
    coerceFeedback raw none =
      .obj [("feedback", .str raw), ("has_issues", .bool false),
            ("suggestions", .arr [])] ∧
    coerceProposal raw (some v) = v ∧
    coerceFeedback raw (some v) = v :=
  ⟨rfl, rfl, rfl, rfl⟩

/-- C5: a Generation-Client failure is absorbed inside the agent step:
the planner stores the degraded proposal (Error text as `plan`, empty
`steps`), the reviewer stores the degraded feedback (Error text as
`feedback`, `has_issues` False, empty `suggestions`), and with a client
that fails on every call the controller loop
still runs to a normal STOP (supervisor, planner, supervisor, reviewer,
supervisor) as if records had been produced. -/
theorem client_failure_absorbed (msg task : String) (strict : Bool) (fuel : Nat) :
    plannerResult (.failure msg) =
      [("plan", .str ("Error: " ++ msg)), ("steps", .arr [])] ∧
    reviewerResult (.failure msg) =
      [("feedback", .str ("Error: " ++ msg)), ("has_issues", .bool false),
       ("suggestions", .arr [])] ∧
    (runAux (fun _ _ _ => .failure msg) (fuel + 3) (initialState task strict) 0).terminated
      = true ∧
    (runAux (fun _ _ _ => .failure msg) (fuel + 3) (initialState task strict) 0).trace
      = [.supervisor, .planner, .supervisor, .reviewer, .supervisor] :=
  ⟨rfl, rfl, rfl, rfl⟩

/-- The shared state right after a loop-back planner run: a present
proposal, stale feedback still reporting issues, three supervisor visits
so far (as in a run where the first review found issues). -/
def loopbackState : AgentState :=
  { title := "LangGraph Agent Task"
    content := "t"
    email := "user@example.com"
    strict := false
    task := "t"
    llm := "smollm:1.7b"
    planner_proposal := [("plan", .str "revised plan"), ("steps", .arr [])]
    reviewer_feedback :=
      [("feedback", .str "needs work"), ("has_issues", .bool true),
       ("suggestions", .arr [])]
    turn_count := 3 }

/-- Client responses for the review-ordering run: call 0 a well-formed
plan, call 1 a feedback reporting issues, later calls well-formed plans. -/
def issueOracle : ClientOracle := fun k _ _ =>
  if k == 0 then .success "" (some (.obj [("plan", .str "p0"), ("steps", .arr [])]))
  else if k == 1 then
    .success ""
      (some (.obj [("feedback", .str "needs work"), ("has_issues", .bool true),
                   ("suggestions", .arr [])]))
  else .success "" (some (.obj [("plan", .str "p1"), ("steps", .arr [])]))

/-- Well-formed planner responses for the forced-issues test graph. -/
def tcForcedOracle : ClientOracle := fun _ _ _ =>
  .success "" (some (.obj [("plan", .str "p"), ("steps", .arr [.str "s1"])]))

/-- C3 evidence: after a loop-back the router dispatches PLANNER again,
not REVIEWER.  On the post-loop-back state the router returns `planner`;
in a full run whose first review reports issues the trace is
supervisor, planner, supervisor, reviewer, supervisor, planner,
supervisor, planner, supervisor — the reviewer runs exactly once and
both loop-back planner runs are followed by another planner dispatch (or
END), never by a reviewer run.  The same happens in the forced-issues
test graph of the repository, whose run ends with the stale feedback
still reporting issues — its reviewer never gets to re-review and
approve, contradicting the printed expectations of the test. -/
theorem loopback_skips_reviewer_evidence :
    router_logic loopbackState = Route.planner ∧
    (runAux issueOracle 9 (initialState "t" false) 0).trace =
      [.supervisor, .planner, .supervisor, .reviewer, .supervisor,
       .planner, .supervisor, .planner, .supervisor] ∧
    (runAux issueOracle 9 (initialState "t" false) 0).terminated = true ∧
    (tcRunAux tcForcedOracle 9 (tcInitialState "t") 0).2.1 =
      [.supervisor, .planner, .supervisor, .reviewer, .supervisor,
       .planner, .supervisor, .planner, .supervisor] ∧
    pyGet (tcRunAux tcForcedOracle 9 (tcInitialState "t") 0).1.reviewer_feedback
        "has_issues" (.bool false) = .bool true :=
  ⟨rfl, rfl, rfl, rfl, rfl⟩

/-- Client responses for the unbounded-loop counterexample: a well-formed
plan first, then every reviewer response is a pair of braces, which
parses to the empty JSON object. -/
def emptyObjOracle : ClientOracle := fun k _ _ =>
  if k == 0 then .success "" (some (.obj [("plan", .str "p"), ("steps", .arr [])]))
  else .success "\x7b\x7d" (some (.obj []))

/-- C2 counterexample: with `MAX_TURNS = 5` the claimed bound is
`2 * 5 + 2 = 12` step executions, but when every reviewer response
parses to the empty JSON object the stored feedback stays empty, the
router keeps choosing REVIEWER (rules 1-2 precede the turn check), and
after 12 executed steps the run has still not terminated — the loop
never reaches STOP. -/
theorem bounded_loop_counterexample :
    (runAux emptyObjOracle 6 (initialState "t" false) 0).trace.length
      = 2 * max_turns + 2 ∧
    (runAux emptyObjOracle 6 (initialState "t" false) 0).terminated = false :=
  ⟨rfl, rfl⟩

/-- C8: the partial update of the supervisor sets exactly
`turn_count` to the old counter plus one, with no other key; neither
agent node carries a `turn_count` key in its update; and in every run the final
counter equals the starting counter plus the number of supervisor
executions in the trace (hence it never decreases). -/
theorem supervisor_increment_only (s t : AgentState) (c : ClientResult)
    (orc : ClientOracle) (fuel calls : Nat) :
    supervisor_node s =
      { planner_proposal := none, reviewer_feedback := none,
        turn_count := some (s.turn_count + 1) } ∧
    (planner_node t c).turn_count = none ∧
    (planner_node t c).reviewer_feedback = none ∧
    (reviewer_node t c).turn_count = none ∧
    (reviewer_node t c).planner_proposal = none ∧
    (runAux orc fuel s calls).final.turn_count =
      s.turn_count + (runAux orc fuel s calls).trace.count .supervisor ∧
    s.turn_count ≤ (runAux orc fuel s calls).final.turn_count := by
  refine ⟨rfl, rfl, rfl, rfl, rfl, runAux_turn_count orc fuel s calls, ?_⟩
  rw [runAux_turn_count orc fuel s calls]
  exact Nat.le_add_right _ _

/-- In the loop-back phase (both records present and non-empty), the run
stops within `d + 1` further supervisor visits once the counter is within
`d` of the turn limit: each further iteration either stops or loops back
to the planner with the counter one higher. -/
theorem runAux_phase (orc : ClientOracle)
    (H : ∀ k m p raw, orc k m p ≠ .success raw (some (.obj []))) :
    ∀ (d : Nat) (s : AgentState) (calls fuel : Nat),
      s.planner_proposal ≠ [] → s.reviewer_feedback ≠ [] →
      max_turns ≤ s.turn_count + d → d < fuel →
      (runAux orc fuel s calls).terminated = true ∧
      (runAux orc fuel s calls).trace.length ≤ 2 * d + 1 := by
  intro d
  induction d with
  | zero =>
    intro s calls fuel hp hf ht hfuel
    obtain ⟨f, rfl⟩ : ∃ f, fuel = f + 1 := ⟨fuel - 1, by omega⟩
    have hstop : router_logic { s with turn_count := s.turn_count + 1 } = .stop := by
      cases hi : pyTruthy (pyGet s.reviewer_feedback "has_issues" (.bool false)) with
      | false => exact router_stop_of_clean _ hp hf hi
      | true =>
        exact router_stop_of_limit _ hp hf hi (show max_turns ≤ s.turn_count + 1 by omega)
    rw [runAux_stop_step orc f s calls hstop]
    exact ⟨rfl, by simp⟩
  | succ d ih =>
    intro s calls fuel hp hf ht hfuel
    obtain ⟨f, rfl⟩ : ∃ f, fuel = f + 1 := ⟨fuel - 1, by omega⟩
    cases hi : pyTruthy (pyGet s.reviewer_feedback "has_issues" (.bool false)) with
    | false =>
      rw [runAux_stop_step orc f s calls (router_stop_of_clean _ hp hf hi)]
      refine ⟨rfl, by simp only [List.length_cons, List.length_nil]; omega⟩
    | true =>
      by_cases hm : max_turns ≤ s.turn_count + 1
      · rw [runAux_stop_step orc f s calls (router_stop_of_limit _ hp hf hi hm)]
        refine ⟨rfl, by simp only [List.length_cons, List.length_nil]; omega⟩
      · have hpl : router_logic { s with turn_count := s.turn_count + 1 } = .planner :=
          router_planner_of_issues _ hp hf hi (show s.turn_count + 1 < max_turns by omega)
        rw [runAux_planner_step orc f s calls hpl]
        have hp2 : (planStep orc s calls).planner_proposal ≠ [] :=
          plannerResult_ne_nil (fun raw => H calls s.llm (plannerPrompt s) raw)
        have hf2 : (planStep orc s calls).reviewer_feedback ≠ [] := hf
        have ht2 : max_turns ≤ (planStep orc s calls).turn_count + d := by
          simp only [planStep]
          omega
        obtain ⟨h1, h2⟩ := ih (planStep orc s calls) (calls + 1) f hp2 hf2 ht2 (by omega)
        refine ⟨by simpa [consStep] using h1, ?_⟩
        simp only [consStep, List.length_cons]
        omega

/-- C2 amended: provided no Generation-Client response parses to the
empty JSON object (which the router would treat as a still-absent
record, see the counterexample), every run from the initial state
terminates within `2 * MAX_TURNS + 2` step executions, whatever the
reviewer verdicts are — including `has_issues: True` on every review. -/
theorem bounded_loop_amended (orc : ClientOracle)
    (H : ∀ k m p raw, orc k m p ≠ .success raw (some (.obj [])))
    (task : String) (strict : Bool) (fuel : Nat) (hfuel : 6 ≤ fuel) :
    (runAux orc fuel (initialState task strict) 0).terminated = true ∧
    (runAux orc fuel (initialState task strict) 0).trace.length ≤ 2 * max_turns + 2 := by
  obtain ⟨f, rfl⟩ : ∃ f, fuel = (f + 1) + 1 := ⟨fuel - 2, by omega⟩
  have h1 : router_logic
      { initialState task strict with
        turn_count := (initialState task strict).turn_count + 1 } = .planner :=
    router_planner_of_empty _ rfl
  rw [runAux_planner_step orc (f + 1) _ 0 h1]
  have hp2 : (planStep orc (initialState task strict) 0).planner_proposal ≠ [] :=
    plannerResult_ne_nil
      (fun raw => H 0 (initialState task strict).llm (plannerPrompt (initialState task strict)) raw)
  have h2 : router_logic
      { planStep orc (initialState task strict) 0 with
        turn_count := (planStep orc (initialState task strict) 0).turn_count + 1 } = .reviewer :=
    router_reviewer_of _ hp2 rfl
  rw [runAux_reviewer_step orc f _ 1 h2]
  have hp3 : (revStep orc (planStep orc (initialState task strict) 0) 1).planner_proposal ≠ [] := hp2
  have hf3 : (revStep orc (planStep orc (initialState task strict) 0) 1).reviewer_feedback ≠ [] :=
    reviewerResult_ne_nil
      (fun raw => H 1 (planStep orc (initialState task strict) 0).llm
        (reviewerPrompt (planStep orc (initialState task strict) 0)) raw)
  have ht3 : max_turns ≤ (revStep orc (planStep orc (initialState task strict) 0) 1).turn_count + 3 := by
    simp [revStep, planStep, initialState, max_turns]
  obtain ⟨h1r, h2r⟩ :=
    runAux_phase orc H 3 (revStep orc (planStep orc (initialState task strict) 0) 1) (1 + 1) f
      hp3 hf3 ht3 (by omega)
  refine ⟨by simpa [consStep] using h1r, ?_⟩
  simp only [consStep, List.length_cons, max_turns]
  omega

/-- Witness for the amended bound: an always-failing client satisfies
the no-empty-object proviso, and the run terminates within 12 steps. -/
theorem bounded_loop_amended_witness :
    (runAux (fun _ _ _ => ClientResult.failure "down") 6 (initialState "t" false) 0).terminated
      = true ∧
    (runAux (fun _ _ _ => ClientResult.failure "down") 6 (initialState "t" false) 0).trace.length
      ≤ 2 * max_turns + 2 :=
  bounded_loop_amended (fun _ _ _ => ClientResult.failure "down")
    (fun _ _ _ _ h => nomatch h) "t" false 6 (by omega)

/-- Client responses for the Scenario A counterexample: the first
planner response parses to the empty JSON object, the second is a
well-formed plan, and every review approves. -/
def emptyFirstPlanOracle : ClientOracle := fun k _ _ =>
  if k == 0 then .success "\x7b\x7d" (some (.obj []))
  else if k == 1 then
    .success "" (some (.obj [("plan", .str "p"), ("steps", .arr [])]))
  else
    .success ""
      (some (.obj [("feedback", .str "ok"), ("has_issues", .bool false),
                   ("suggestions", .arr [])]))

/-- C6 counterexample: from the initial state, when the first planner
response parses to the empty JSON object (stored as the empty dict,
which the router treats as still-absent) and the reviewer then returns
`has_issues` false on its first — and only — review, the run is
supervisor, planner, supervisor, planner, supervisor, reviewer,
supervisor with final `turn_count = 4`: not the claimed five-step trace
with `turn_count = 3`, although the first review did return a falsy
`has_issues`. -/
theorem scenario_first_review_counterexample :
    (runAux emptyFirstPlanOracle 7 (initialState "t" false) 0).trace =
      [.supervisor, .planner, .supervisor, .planner, .supervisor,
       .reviewer, .supervisor] ∧
    (runAux emptyFirstPlanOracle 7 (initialState "t" false) 0).terminated = true ∧
    (runAux emptyFirstPlanOracle 7 (initialState "t" false) 0).final.turn_count = 4 ∧
    pyGet (runAux emptyFirstPlanOracle 7 (initialState "t" false) 0).final.reviewer_feedback
      "has_issues" (.bool false) = .bool false :=
  ⟨rfl, rfl, rfl, rfl⟩

/-- C6 amended (Scenario A): from the initial state, PROVIDED the first
planner call stores a proposal the router recognizes (a non-empty dict
— see the counterexample for why this proviso is needed), if the first
review stores a feedback whose `has_issues` entry is falsy, then the run
is exactly supervisor, planner, supervisor, reviewer, supervisor — STOP
with final `turn_count = 3`.  The hypotheses name the exact client calls
the run makes: call 0 with the planner prompt, call 1 with the reviewer
prompt built from the stored proposal. -/
theorem scenario_first_review_clean (orc : ClientOracle) (task : String)
    (strict : Bool) (v : JsonVal) (fuel : Nat)
    (hplan : plannerResult
      (orc 0 (initialState task strict).llm (plannerPrompt (initialState task strict))) ≠ [])
    (hfb : (reviewerResult
      (orc 1 (planStep orc (initialState task strict) 0).llm
        (reviewerPrompt (planStep orc (initialState task strict) 0)))).lookup "has_issues"
      = some v)
    (hv : pyTruthy v = false) :
    (runAux orc (fuel + 3) (initialState task strict) 0).trace =
      [.supervisor, .planner, .supervisor, .reviewer, .supervisor] ∧
    (runAux orc (fuel + 3) (initialState task strict) 0).terminated = true ∧
    (runAux orc (fuel + 3) (initialState task strict) 0).final.turn_count = 3 := by
  have e3 : fuel + 3 = ((fuel + 1) + 1) + 1 := rfl
  rw [e3]
  have h1 : router_logic
      { initialState task strict with
        turn_count := (initialState task strict).turn_count + 1 } = .planner :=
    router_planner_of_empty _ rfl
  rw [runAux_planner_step orc (fuel + 1 + 1) _ 0 h1]
  have hp2 : (planStep orc (initialState task strict) 0).planner_proposal ≠ [] := hplan
  have h2 : router_logic
      { planStep orc (initialState task strict) 0 with
        turn_count := (planStep orc (initialState task strict) 0).turn_count + 1 } = .reviewer :=
    router_reviewer_of _ hp2 rfl
  rw [runAux_reviewer_step orc (fuel + 1) _ 1 h2]
  have hp3 : (revStep orc (planStep orc (initialState task strict) 0) 1).planner_proposal ≠ [] :=
    hp2
  have hf3 : (revStep orc (planStep orc (initialState task strict) 0) 1).reviewer_feedback ≠ [] :=
    dict_ne_nil_of_lookup hfb
  have hi3 : pyTruthy
      (pyGet (revStep orc (planStep orc (initialState task strict) 0) 1).reviewer_feedback
        "has_issues" (.bool false)) = false := by
    show pyTruthy (pyGet (reviewerResult _) "has_issues" (.bool false)) = false
    rw [pyGet, hfb]
    exact hv
  have h3 : router_logic
      { revStep orc (planStep orc (initialState task strict) 0) 1 with
        turn_count := (revStep orc (planStep orc (initialState task strict) 0) 1).turn_count + 1 }
      = .stop :=
    router_stop_of_clean _ hp3 hf3 hi3
  rw [runAux_stop_step orc fuel _ (1 + 1) h3]
  exact ⟨rfl, rfl, rfl⟩

/-- Concrete client responses for the Scenario A witness: a well-formed
plan, then an approving review. -/
def cleanOracle : ClientOracle := fun k _ _ =>
  if k == 0 then .success "" (some (.obj [("plan", .str "p"), ("steps", .arr [])]))
  else
    .success ""
      (some (.obj [("feedback", .str "ok"), ("has_issues", .bool false),
                   ("suggestions", .arr [])]))

/-- Witness for Scenario A at a concrete oracle and task. -/
theorem scenario_first_review_clean_witness :
    (runAux cleanOracle 3 (initialState "X" false) 0).trace =
      [.supervisor, .planner, .supervisor, .reviewer, .supervisor] ∧
    (runAux cleanOracle 3 (initialState "X" false) 0).final.turn_count = 3 :=
  have h := scenario_first_review_clean cleanOracle "X" false (.bool false) 0
    (fun he => nomatch he) rfl rfl
  ⟨h.1, h.2.2⟩

/-- C9: `strict` influences only the wording of the reviewer prompt.
If the Generation-Client responses do not depend on the prompt text (the
"same responses" hypothesis), then two runs whose states differ only in
`strict` produce the same node trace (hence the same sequence of router
decisions), the same termination flag, and final states that again
differ only in `strict` — in particular the same final `turn_count`. -/
theorem strictmode_noninterference (orc : ClientOracle)
    (H : ∀ k m p q, orc k m p = orc k m q) :
    ∀ (fuel : Nat) (s : AgentState) (b : Bool) (calls : Nat),
      (runAux orc fuel { s with strict := b } calls).trace =
        (runAux orc fuel s calls).trace ∧
      (runAux orc fuel { s with strict := b } calls).terminated =
        (runAux orc fuel s calls).terminated ∧
      (runAux orc fuel { s with strict := b } calls).final =
        { (runAux orc fuel s calls).final with strict := b } := by
  intro fuel
  induction fuel with
  | zero => intro s b calls; exact ⟨rfl, rfl, rfl⟩
  | succ f ih =>
    intro s b calls
    cases hR : router_logic { s with turn_count := s.turn_count + 1 } with
    | stop =>
        have hR' : router_logic
            { { s with strict := b } with
              turn_count := ({ s with strict := b }).turn_count + 1 } = .stop := hR
        rw [runAux_stop_step orc f s calls hR,
            runAux_stop_step orc f { s with strict := b } calls hR']
        exact ⟨rfl, rfl, rfl⟩
    | planner =>
        have hR' : router_logic
            { { s with strict := b } with
              turn_count := ({ s with strict := b }).turn_count + 1 } = .planner := hR
        rw [runAux_planner_step orc f s calls hR,
            runAux_planner_step orc f { s with strict := b } calls hR']
        have e : planStep orc { s with strict := b } calls =
            { planStep orc s calls with strict := b } := rfl
        rw [e]
        obtain ⟨e1, e2, e3⟩ := ih (planStep orc s calls) b (calls + 1)
        exact ⟨by simp [consStep, e1], by simp [consStep, e2], by simp [consStep, e3]⟩
    | reviewer =>
        have hR' : router_logic
            { { s with strict := b } with
              turn_count := ({ s with strict := b }).turn_count + 1 } = .reviewer := hR
        rw [runAux_reviewer_step orc f s calls hR,
            runAux_reviewer_step orc f { s with strict := b } calls hR']
        have e : revStep orc { s with strict := b } calls =
            { revStep orc s calls with strict := b } := by
          have hres := H calls s.llm
            (reviewerPrompt { s with strict := b }) (reviewerPrompt s)
          simp only [revStep]
          rw [show ({ s with strict := b } : AgentState).llm = s.llm from rfl,
              show ({ s with strict := b } : AgentState).turn_count = s.turn_count from rfl,
              hres]
        rw [e]
        obtain ⟨e1, e2, e3⟩ := ih (revStep orc s calls) b (calls + 1)
        exact ⟨by simp [consStep, e1], by simp [consStep, e2], by simp [consStep, e3]⟩

/-- Witness for strict-mode non-interference at a concrete oracle,
fuel and initial state. -/
theorem strictmode_noninterference_witness :
    (runAux (fun _ _ _ => ClientResult.failure "x") 3
        { initialState "t" false with strict := true } 0).trace =
      (runAux (fun _ _ _ => ClientResult.failure "x") 3 (initialState "t" false) 0).trace ∧
    (runAux (fun _ _ _ => ClientResult.failure "x") 3
        { initialState "t" false with strict := true } 0).terminated =
      (runAux (fun _ _ _ => ClientResult.failure "x") 3 (initialState "t" false) 0).terminated ∧
    (runAux (fun _ _ _ => ClientResult.failure "x") 3
        { initialState "t" false with strict := true } 0).final =
      { (runAux (fun _ _ _ => ClientResult.failure "x") 3 (initialState "t" false) 0).final with
        strict := true } :=
  strictmode_noninterference (fun _ _ _ => ClientResult.failure "x")
    (fun _ _ _ _ => rfl) 3 (initialState "t" false) true 0

/-- A reachable loop-back state with feedback present (the marker text
XYZZY stands in for the reviewer prose). -/
def feedbackPresentState : AgentState :=
  { initialState "t" false with
    planner_proposal := [("plan", .str "p"), ("steps", .arr [])]
    reviewer_feedback := [("feedback", .str "XYZZY"), ("has_issues", .bool true)]
    turn_count := 3 }

set_option maxRecDepth 8000 in
/-- C7 counterexample: in `langgraph_agents.py` the planner prompt is
the same whether or not feedback is present — on a state with feedback
present it equals the first-draft prompt of the feedback-free state and
contains neither the feedback text nor its dump, so the step does not
"include that feedback and request a revision".  In the
`test_correction_loop.py` variant a state with feedback present but
`turn_count = 1` also still gets the first-draft prompt. -/
theorem planner_feedback_counterexample :
    plannerPrompt feedbackPresentState =
      plannerPrompt { feedbackPresentState with reviewer_feedback := [] } ∧
    strContainsSub (plannerPrompt feedbackPresentState) "XYZZY" = false ∧
    strContainsSub (plannerPrompt feedbackPresentState)
      (jsonDumps (.obj feedbackPresentState.reviewer_feedback)) = false ∧
    tcPlannerPrompt
      { task := "t", llm := "smollm:1.7b"
        planner_proposal := [("plan", .str "p"), ("steps", .arr [])]
        reviewer_feedback := [("feedback", .str "XYZZY"), ("has_issues", .bool true)]
        turn_count := 1 } = tcDraftPrompt "t" :=
  ⟨rfl, rfl, rfl, rfl⟩

/-- C7 amended: in `langgraph_agents.py` the planner prompt is built
from the task alone and never varies with the stored feedback (always a
first draft); in `test_correction_loop.py` the planner requests a
revision embedding the feedback dump exactly when the stored feedback is
non-empty AND `turn_count > 1`, and a first draft otherwise. -/
theorem planner_prompt_amended (s : AgentState) (fb : PyDict) (t : TCAgentState) :
    plannerPrompt { s with reviewer_feedback := fb } = plannerPrompt s ∧
    (t.reviewer_feedback ≠ [] → 1 < t.turn_count →
      tcPlannerPrompt t = tcRevisionPrompt (jsonDumps (.obj t.reviewer_feedback)) t.task) ∧
    (t.reviewer_feedback = [] ∨ t.turn_count ≤ 1 →
      tcPlannerPrompt t = tcDraftPrompt t.task) := by
  refine ⟨rfl, ?_, ?_⟩
  · intro h1 h2
    simp [tcPlannerPrompt, isEmpty_false_of_ne_nil h1, h2]
  · rintro (h | h)
    · simp [tcPlannerPrompt, h]
    · simp [tcPlannerPrompt, Nat.not_lt.mpr h]

/-- Witness for the amended planner-prompt rule: the main prompt ignores
a concrete feedback record; the variant picks the revision prompt at
turn 2 with feedback present, and the first-draft prompt on the initial
state. -/
theorem planner_prompt_amended_witness :
    plannerPrompt
        { initialState "t" false with reviewer_feedback := [("has_issues", .bool true)] } =
      plannerPrompt (initialState "t" false) ∧
    tcPlannerPrompt
        { task := "t", llm := "smollm:1.7b", planner_proposal := []
          reviewer_feedback := [("has_issues", .bool true)], turn_count := 2 } =
      tcRevisionPrompt (jsonDumps (.obj [("has_issues", .bool true)])) "t" ∧
    tcPlannerPrompt (tcInitialState "t") = tcDraftPrompt "t" :=
  ⟨(planner_prompt_amended (initialState "t" false) [("has_issues", .bool true)]
      (tcInitialState "t")).1,
   (planner_prompt_amended (initialState "t" false) [("has_issues", .bool true)]
      { task := "t", llm := "smollm:1.7b", planner_proposal := []
        reviewer_feedback := [("has_issues", .bool true)], turn_count := 2 }).2.1
     (fun he => nomatch he) Nat.one_lt_two,
   (planner_prompt_amended (initialState "t" false) [] (tcInitialState "t")).2.2
     (Or.inl rfl)⟩
